import Mathlib

/-
Shallow embedding of the flight-price Telegram bot (the variant with the
duplicate-offer cache, retrying sendMessage and cycle counters).

Time is in milliseconds, modelled as Nat.  JS `now - t` on timestamps with
`now < t` is negative; for the two comparisons the code performs
(`now - lastSeen < duplicateWindow` and `now - timestamp > maxAge`) a
negative left-hand side gives the same boolean as Nat-truncated subtraction
(0), so Nat subtraction is a faithful model.

Telegram transport is external: each sendMessage call's terminal outcome is
an oracle `sendOk : Nat → Bool` indexed by the order of the call within the
cycle, and the low-level per-attempt transport for the retry loop is a
separate oracle `transport : Nat → Bool` indexed by attempt number.
-/

namespace FlightBot

/-- A fetched item: `{fecha, precio}`. `precio = none` models an absent
price field; JS truthiness of the price is `none`/`some 0` falsy. -/
structure Vuelo where
  fecha : String
  precio : Option Int
deriving DecidableEq

/-- JS truthiness of `v.precio`. -/
def truthy : Option Int → Bool
  | none => false
  | some p => p != 0

/-- JS comparison `v.precio < threshold` (undefined < n is false). -/
def priceBelow : Option Int → Int → Bool
  | none, _ => false
  | some p, thr => p < thr

/-- String interpolation of the price, as in the template literal. -/
def precioStr : Option Int → String
  | none => "undefined"
  | some p => toString p

/-- `getFlightId(vuelo)`: the string `fecha + "_" + precio`. -/
def getFlightId (v : Vuelo) : String :=
  v.fecha ++ "_" ++ precioStr v.precio

/-- `botState.lastOffers`: a Map from flight id to last-seen timestamp,
modelled as an association list with distinct keys. -/
abbrev Cache := List (String × Nat)

/-- `Map.get`. -/
def lookupOffer (k : String) : Cache → Option Nat
  | [] => none
  | (k', t) :: rest => if k' = k then some t else lookupOffer k rest

/-- `Map.set`: replaces the binding if the key is present, appends it
otherwise. -/
def setOffer (k : String) (t : Nat) : Cache → Cache
  | [] => [(k, t)]
  | (k', t') :: rest =>
    if k' = k then (k, t) :: rest else (k', t') :: setOffer k t rest

/-- 2 hours in ms: the duplicate window. -/
def duplicateWindow : Nat := 2 * 60 * 60 * 1000

/-- 24 hours in ms: cache retention used by `cleanupOldOffers`. -/
def cacheMaxAge : Nat := 24 * 60 * 60 * 1000

/-- `config.maxRetries`. -/
def maxRetries : Nat := 3

/-- `config.retryDelay` in ms. -/
def retryDelay : Nat := 5000

/-- Default `config.priceThreshold`. -/
def defaultThreshold : Int := 250

/-- `isDuplicateOffer(vuelo)` at time `now`: returns the boolean result and
the cache after the call.  A hit younger than the window returns `true`
without mutating; otherwise the entry is set to `now` and it returns
`false`. -/
def isDuplicateOffer (now : Nat) (v : Vuelo) (cache : Cache) : Bool × Cache :=
  let flightId := getFlightId v
  match lookupOffer flightId cache with
  | some lastSeen =>
    if now - lastSeen < duplicateWindow then (true, cache)
    else (false, setOffer flightId now cache)
  | none => (false, setOffer flightId now cache)

/-- The eviction sweep with an explicit age limit: deletes every entry with
`now - timestamp > ma`. -/
def evictStale (now ma : Nat) (cache : Cache) : Cache :=
  cache.filter (fun e => ! decide (now - e.2 > ma))

/-- `cleanupOldOffers()` at time `now`: the sweep with the hard-coded
24-hour limit. -/
def cleanupOldOffers (now : Nat) (cache : Cache) : Cache :=
  evictStale now cacheMaxAge cache

/-- Observable trace of one `sendMessage(message)` call: attempts made,
waits (`setTimeout(retryDelay)`) performed, messages actually delivered,
and whether the call returned normally (`success = false` models the final
`throw err`). -/
structure SendTrace where
  attempts : Nat
  waits : Nat
  delivered : Nat
  success : Bool
deriving DecidableEq

/-- The recursive retry of `sendMessage`: `retriesLeft` is
`maxRetries - retries`, `attemptNo` the 0-based attempt index into the
transport oracle.  A successful attempt delivers exactly one message and
returns; a failed attempt with retries left waits once and recurses; a
failed attempt with no retries left rethrows. -/
def sendMessageRetry (transport : Nat → Bool) : Nat → Nat → SendTrace
  | 0, attemptNo =>
    if transport attemptNo then ⟨1, 0, 1, true⟩ else ⟨1, 0, 0, false⟩
  | n + 1, attemptNo =>
    if transport attemptNo then ⟨1, 0, 1, true⟩
    else
      let t := sendMessageRetry transport n (attemptNo + 1)
      ⟨t.attempts + 1, t.waits + 1, t.delivered, t.success⟩

/-- `sendMessage(message)` called from the top (`retries = 0`). -/
def sendMessage (transport : Nat → Bool) : SendTrace :=
  sendMessageRetry transport maxRetries 0

/-- Messages the cycle can deliver, abstracted to their identifying
content. -/
inductive Msg where
  | startup
  | offer (fecha : String) (precio : Option Int)
  | escalation (errCount : Nat)
deriving DecidableEq

/-- `botState` (the fields the cycle mutates). -/
structure BotState where
  initialized : Bool
  totalChecks : Nat
  offersFound : Nat
  errors : Nat
  lastCheck : Option Nat
  lastOffers : Cache
deriving DecidableEq

/-- `botState` as first created. -/
def initialBotState : BotState :=
  { initialized := false, totalChecks := 0, offersFound := 0, errors := 0
    lastCheck := none, lastOffers := [] }

/-- The `catch` block of `fetchFlightData`: increment `errors`; when the
new count is a multiple of 10, attempt one escalation notification whose
own failure is swallowed. -/
def handleCatch (sendOk : Nat → Bool) (idx : Nat) (st : BotState) :
    BotState × List Msg :=
  let st' := { st with errors := st.errors + 1 }
  if st'.errors % 10 == 0 then
    if sendOk idx then (st', [Msg.escalation st'.errors]) else (st', [])
  else (st', [])

/-- `data.vuelos.filter(v => v.precio && v.precio < threshold &&
!isDuplicateOffer(v))`: the predicate short-circuits, so the cache is
consulted/mutated only for truthy prices below the threshold.  Returns the
surviving items and the cache after the pass. -/
def filterOfertas (thr : Int) (now : Nat) :
    List Vuelo → Cache → List Vuelo × Cache
  | [], cache => ([], cache)
  | v :: rest, cache =>
    if truthy v.precio && priceBelow v.precio thr then
      let r := isDuplicateOffer now v cache
      let q := filterOfertas thr now rest r.2
      (if r.1 then q.1 else v :: q.1, q.2)
    else filterOfertas thr now rest cache

/-- The `for (const vuelo of ofertas)` loop: sends each offer message in
order.  Returns the delivered messages, the next send index, and whether a
terminal send failure aborted the loop (the rethrown error). -/
def dispatchOfertas (sendOk : Nat → Bool) :
    List Vuelo → Nat → List Msg × Nat × Bool
  | [], idx => ([], idx, false)
  | v :: rest, idx =>
    if sendOk idx then
      let q := dispatchOfertas sendOk rest (idx + 1)
      (Msg.offer v.fecha v.precio :: q.1, q.2.1, q.2.2)
    else ([], idx + 1, true)

/-- The tail of the `try` block after a successful fetch and startup
notice: filter, count `offersFound`, dispatch, then on a clean pass set
`lastCheck` and run the periodic cache cleanup.  A rethrown send failure
lands in the catch block. -/
def processOfertas (thr : Int) (now : Nat) (vuelos : List Vuelo)
    (sendOk : Nat → Bool) (idx : Nat) (imsgs : List Msg) (st : BotState) :
    BotState × List Msg :=
  let fr := filterOfertas thr now vuelos st.lastOffers
  let ofertas := fr.1
  let st1 := { st with lastOffers := fr.2 }
  let st2 :=
    if 0 < ofertas.length then
      { st1 with offersFound := st1.offersFound + ofertas.length }
    else st1
  let d := dispatchOfertas sendOk ofertas idx
  if d.2.2 then
    let e := handleCatch sendOk d.2.1 st2
    (e.1, imsgs ++ d.1 ++ e.2)
  else
    let st3 := { st2 with lastCheck := some now }
    let st4 :=
      if st3.totalChecks % 100 == 0 then
        { st3 with lastOffers := cleanupOldOffers now st3.lastOffers }
      else st3
    (st4, imsgs ++ d.1)

/-- One `fetchFlightData()` cycle.  `fetch = none` models any fetch-stage
failure (network error, bad status, malformed payload); `some vuelos` a
successful fetch.  `sendOk n` is the terminal outcome of the n-th
`sendMessage` call of this cycle. -/
def fetchFlightData (thr : Int) (now : Nat) (fetch : Option (List Vuelo))
    (sendOk : Nat → Bool) (st0 : BotState) : BotState × List Msg :=
  let st1 := { st0 with totalChecks := st0.totalChecks + 1 }
  match fetch with
  | none => handleCatch sendOk 0 st1
  | some vuelos =>
    if st1.initialized then processOfertas thr now vuelos sendOk 0 [] st1
    else
      let st2 := { st1 with initialized := true }
      if sendOk 0 then
        processOfertas thr now vuelos sendOk 1 [Msg.startup] st2
      else handleCatch sendOk 1 st2

/-- A sequence of cron ticks: folds `fetchFlightData` over a script of
(now, fetch result) pairs, collecting each cycle's delivered messages. -/
def runScript (thr : Int) (sendOk : Nat → Bool) :
    List (Nat × Option (List Vuelo)) → BotState → BotState × List (List Msg)
  | [], st => (st, [])
  | (now, f) :: rest, st =>
    let r := fetchFlightData thr now f sendOk st
    let q := runScript thr sendOk rest r.1
    (q.1, r.2 :: q.2)

/-- A bot state that has already sent its startup notice. -/
def stInit : BotState := { initialBotState with initialized := true }

/-- A bot state whose cache already holds the 2026-03-08/$210 offer with
timestamp 0. -/
def stSeen : BotState := { stInit with lastOffers := [("2026-03-08_210", 0)] }

/- ------------------------------------------------------------------ -/
/- Helper lemmas                                                      -/
/- ------------------------------------------------------------------ -/

theorem handleCatch_fst (s : Nat → Bool) (i : Nat) (st : BotState) :
    (handleCatch s i st).1 = { st with errors := st.errors + 1 } := by
  simp only [handleCatch]
  split
  · split <;> rfl
  · rfl

theorem handleCatch_snd (s : Nat → Bool) (i : Nat) (st : BotState) :
    (handleCatch s i st).2 = [] ∨
      (handleCatch s i st).2 = [Msg.escalation (st.errors + 1)] := by
  simp only [handleCatch]
  split
  · split
    · exact Or.inr rfl
    · exact Or.inl rfl
  · exact Or.inl rfl

theorem lookupOffer_setOffer_self (k : String) (t : Nat) (c : Cache) :
    lookupOffer k (setOffer k t c) = some t := by
  induction c with
  | nil => simp [setOffer, lookupOffer]
  | cons e rest ih =>
    obtain ⟨k', t'⟩ := e
    by_cases hk : k' = k
    · simp [setOffer, lookupOffer, hk]
    · simp [setOffer, lookupOffer, hk, ih]

theorem lookupOffer_evictStale (now ma : Nat) (k : String) (t : Nat)
    (hage : now - t ≤ ma) (c : Cache) (h : lookupOffer k c = some t) :
    lookupOffer k (evictStale now ma c) = some t := by
  induction c with
  | nil => simp [lookupOffer] at h
  | cons e rest ih =>
    obtain ⟨k', t'⟩ := e
    by_cases hk : k' = k
    · subst hk
      rw [lookupOffer, if_pos rfl] at h
      injection h with h
      subst h
      have hkeep : ¬ (now - t' > ma) := by omega
      simp [evictStale, List.filter_cons, hkeep, lookupOffer]
    · rw [lookupOffer, if_neg hk] at h
      have := ih h
      by_cases hkeep : now - t' > ma
      · simpa [evictStale, List.filter_cons, hkeep] using this
      · simpa [evictStale, List.filter_cons, hkeep, lookupOffer, hk] using this

theorem mem_filterOfertas (thr : Int) (now : Nat) :
    ∀ (l : List Vuelo) (c : Cache) (v : Vuelo),
      v ∈ (filterOfertas thr now l c).1 →
      truthy v.precio = true ∧ priceBelow v.precio thr = true := by
  intro l
  induction l with
  | nil => intro c v h; simp [filterOfertas] at h
  | cons a rest ih =>
    intro c v h
    by_cases hc : (truthy a.precio && priceBelow a.precio thr) = true
    · simp only [filterOfertas, hc, if_true] at h
      by_cases hd : (isDuplicateOffer now a c).1 = true
      · simp only [hd, if_true] at h
        exact ih _ v h
      · simp only [Bool.not_eq_true] at hd
        simp only [hd, Bool.false_eq_true, if_false, List.mem_cons] at h
        rcases h with h | h
        · subst h
          exact ⟨(Bool.and_eq_true _ _).mp hc |>.1,
                 (Bool.and_eq_true _ _).mp hc |>.2⟩
        · exact ih _ v h
    · simp only [Bool.not_eq_true] at hc
      simp only [filterOfertas, hc, Bool.false_eq_true, if_false] at h
      exact ih _ v h

theorem fetchFlightData_initialized (thr : Int) (now : Nat)
    (vuelos : List Vuelo) (sendOk : Nat → Bool) (st : BotState)
    (hinit : st.initialized = true) :
    fetchFlightData thr now (some vuelos) sendOk st =
      processOfertas thr now vuelos sendOk 0 []
        { st with totalChecks := st.totalChecks + 1 } := by
  simp [fetchFlightData, hinit]

theorem processOfertas_offersFound (thr : Int) (now : Nat)
    (vuelos : List Vuelo) (sendOk : Nat → Bool) (idx : Nat)
    (imsgs : List Msg) (st : BotState) :
    ((processOfertas thr now vuelos sendOk idx imsgs st).1).offersFound =
      st.offersFound + (filterOfertas thr now vuelos st.lastOffers).1.length := by
  simp only [processOfertas]
  by_cases hl : 0 < (filterOfertas thr now vuelos st.lastOffers).1.length
  · rw [if_pos hl]
    split
    · rw [handleCatch_fst]
    · split <;> rfl
  · rw [if_neg hl, Nat.eq_zero_of_not_pos hl, Nat.add_zero]
    split
    · rw [handleCatch_fst]
    · split <;> rfl

theorem processOfertas_fail (thr : Int) (now : Nat) (vuelos : List Vuelo)
    (sendOk : Nat → Bool) (idx : Nat) (imsgs : List Msg) (st : BotState)
    (hne : (filterOfertas thr now vuelos st.lastOffers).1 ≠ [])
    (hfail : sendOk idx = false) :
    ((processOfertas thr now vuelos sendOk idx imsgs st).1).errors =
      st.errors + 1 ∧
    ∀ m, m ∈ (processOfertas thr now vuelos sendOk idx imsgs st).2 →
      m ∈ imsgs ∨ ∃ n, m = Msg.escalation n := by
  obtain ⟨o, os, ho⟩ : ∃ o os,
      (filterOfertas thr now vuelos st.lastOffers).1 = o :: os := by
    cases h : (filterOfertas thr now vuelos st.lastOffers).1 with
    | nil => exact absurd h hne
    | cons o os => exact ⟨o, os, rfl⟩
  have hd : dispatchOfertas sendOk
      ((filterOfertas thr now vuelos st.lastOffers).1) idx =
      ([], idx + 1, true) := by
    rw [ho]
    simp [dispatchOfertas, hfail]
  have hl : 0 < (filterOfertas thr now vuelos st.lastOffers).1.length := by
    rw [ho]; simp
  simp only [processOfertas, hd, if_pos hl, if_true]
  constructor
  · rw [handleCatch_fst]
  · intro m hm
    simp only [List.append_nil, List.mem_append] at hm
    rcases hm with hm | hm
    · exact Or.inl hm
    · rcases handleCatch_snd sendOk (idx + 1) _ with h | h
      · rw [h] at hm
        simp at hm
      · rw [h] at hm
        simp only [List.mem_singleton] at hm
        exact Or.inr ⟨_, hm⟩

theorem processOfertas_cache (thr : Int) (now : Nat) (vuelos : List Vuelo)
    (sendOk : Nat → Bool) (idx : Nat) (imsgs : List Msg) (st : BotState)
    (k : String)
    (hk : lookupOffer k (filterOfertas thr now vuelos st.lastOffers).2 =
      some now) :
    lookupOffer k
      ((processOfertas thr now vuelos sendOk idx imsgs st).1).lastOffers =
      some now := by
  simp only [processOfertas]
  split
  · rw [handleCatch_fst]
    split <;> exact hk
  · repeat' split
    all_goals
      first
        | exact hk
        | exact lookupOffer_evictStale now cacheMaxAge k now (by omega) _ hk

theorem sendMessageRetry_spec (transport : Nat → Bool) :
    ∀ (n k : Nat),
      (sendMessageRetry transport n k).attempts ≤ n + 1 ∧
      ((sendMessageRetry transport n k).success = true →
        (sendMessageRetry transport n k).delivered = 1) ∧
      (sendMessageRetry transport n k).waits + 1 =
        (sendMessageRetry transport n k).attempts ∧
      ((∀ m, transport m = false) →
        sendMessageRetry transport n k = ⟨n + 1, n, 0, false⟩) := by
  intro n
  induction n with
  | zero =>
    intro k
    by_cases h : transport k = true
    · refine ⟨?_, ?_, ?_, ?_⟩ <;> simp [sendMessageRetry, h]
      exact ⟨k, h⟩
    · simp only [Bool.not_eq_true] at h
      simp [sendMessageRetry, h]
  | succ n ih =>
    intro k
    by_cases h : transport k = true
    · refine ⟨?_, ?_, ?_, ?_⟩ <;> simp [sendMessageRetry, h]
      exact ⟨k, h⟩
    · simp only [Bool.not_eq_true] at h
      obtain ⟨h1, h2, h3, h4⟩ := ih (k + 1)
      refine ⟨?_, ?_, ?_, ?_⟩ <;>
        simp only [sendMessageRetry, h, Bool.false_eq_true, if_false]
      · omega
      · exact h2
      · omega
      · intro hall
        rw [h4 hall]

/- ------------------------------------------------------------------ -/
/- Claim theorems                                                     -/
/- ------------------------------------------------------------------ -/

/-- C2: the code keeps one cumulative `errors` counter and a successful
fetch never resets it: after one failed cycle followed by one successful
cycle, `errors` is still 1 (the spec's claim needs it to be 0), while
`totalChecks = 2` shows the successful cycle did run. -/
theorem errors_never_reset_on_success :
    ((fetchFlightData 250 0 none (fun _ => true) stInit).1).errors = 1 ∧
    ((fetchFlightData 250 1 (some []) (fun _ => true)
        ((fetchFlightData 250 0 none (fun _ => true) stInit).1)).1).errors = 1 ∧
    ((fetchFlightData 250 1 (some []) (fun _ => true)
        ((fetchFlightData 250 0 none (fun _ => true) stInit).1)).1).totalChecks = 2 := by
  decide

/-- C3: ten consecutive fetch failures from a fresh state deliver exactly
one escalation, on the 10th failing cycle and never before; but the code
tests `errors % 10 == 0` on the cumulative counter, so after 9 failures, a
success and one further failure (a streak of length 1) an escalation is
still sent; and an escalation whose own send fails is swallowed, leaving
the state updated and nothing delivered. -/
theorem escalation_on_cumulative_tens :
    ((runScript 250 (fun _ => true)
        (List.replicate 10 ((0 : Nat), (none : Option (List Vuelo)))) stInit).2 =
      List.replicate 9 [] ++ [[Msg.escalation 10]]) ∧
    ((runScript 250 (fun _ => true)
        (List.replicate 9 ((0 : Nat), (none : Option (List Vuelo))) ++
          [(0, some []), (0, none)]) stInit).2 =
      List.replicate 9 [] ++ [[], [Msg.escalation 10]]) ∧
    ((handleCatch (fun _ => false) 0 { stInit with errors := 9 }).1.errors = 10 ∧
      (handleCatch (fun _ => false) 0 { stInit with errors := 9 }).2 = []) := by
  decide

/-- C5 counterexample: on persistent transport failure a `sendMessage`
call makes 4 attempts, which is not at most `maxRetries = 3` attempts
total. -/
theorem sendMessage_four_attempts :
    (sendMessage (fun _ => false)).attempts = 4 ∧
    ¬ ((sendMessage (fun _ => false)).attempts ≤ maxRetries) := by
  decide

/-- C5 (amended): a send call makes at most `maxRetries + 1 = 4` attempts
total (the initial attempt plus up to `maxRetries` retries) with one
`retryDelay` wait between consecutive attempts; persistent transport
failure yields exactly 4 attempts, 3 waits, no delivery and a terminal
failure surfaced to the caller; a send that ultimately succeeds delivers
exactly one message. -/
theorem sendMessage_retry_contract (transport : Nat → Bool) :
    (sendMessage transport).attempts ≤ maxRetries + 1 ∧
    ((∀ m, transport m = false) →
      sendMessage transport =
        { attempts := maxRetries + 1, waits := maxRetries, delivered := 0,
          success := false }) ∧
    ((sendMessage transport).success = true →
      (sendMessage transport).delivered = 1) ∧
    (sendMessage transport).waits + 1 = (sendMessage transport).attempts := by
  obtain ⟨h1, h2, h3, h4⟩ := sendMessageRetry_spec transport maxRetries 0
  exact ⟨h1, fun hall => h4 hall, h2, h3⟩

/-- Witness for C5's amended theorem at the always-failing transport. -/
theorem sendMessage_retry_contract_witness :
    sendMessage (fun _ => false) =
      { attempts := maxRetries + 1, waits := maxRetries, delivered := 0,
        success := false } :=
  (sendMessage_retry_contract (fun _ => false)).2.1 (fun _ => rfl)

/-- C7: every item surviving the qualifying filter has a truthy price
strictly below the threshold (so an item with price ≥ threshold is never
passed to the Notifier), and with threshold 250 the batch
[{2026-03-08, 210}, {2026-03-09, 300}] delivers exactly one notification,
for 2026-03-08 at $210. -/
theorem price_threshold_filter :
    (∀ (thr : Int) (now : Nat) (vuelos : List Vuelo) (cache : Cache) (v : Vuelo),
        v ∈ (filterOfertas thr now vuelos cache).1 →
        truthy v.precio = true ∧ priceBelow v.precio thr = true) ∧
    (fetchFlightData 250 0
        (some [⟨"2026-03-08", some 210⟩, ⟨"2026-03-09", some 300⟩])
        (fun _ => true) stInit).2 = [Msg.offer "2026-03-08" (some 210)] :=
  ⟨fun thr now vuelos cache v h => mem_filterOfertas thr now vuelos cache v h,
   by decide⟩

/-- Witness for C7 at a concrete surviving item. -/
theorem price_threshold_filter_witness :
    truthy (some 210) = true ∧ priceBelow (some 210) 250 = true :=
  price_threshold_filter.1 250 0 [⟨"2026-03-08", some 210⟩] []
    ⟨"2026-03-08", some 210⟩ (by decide)

/-- C8: the eviction sweep at time `now` with limit `ma` removes every
entry whose age exceeds `ma` and retains (unchanged) every entry whose age
is below `ma`; `cleanupOldOffers` is the sweep at the hard-coded 24-hour
limit. -/
theorem evictStale_spec (now ma : Nat) (cache : Cache) (k : String) (t : Nat)
    (hmem : (k, t) ∈ cache) :
    (now - t > ma → (k, t) ∉ evictStale now ma cache) ∧
    (now - t < ma → (k, t) ∈ evictStale now ma cache) ∧
    cleanupOldOffers now cache = evictStale now cacheMaxAge cache := by
  refine ⟨?_, ?_, rfl⟩
  · intro hage hmem2
    rw [evictStale, List.mem_filter] at hmem2
    have h2 := hmem2.2
    simp at h2
    omega
  · intro hage
    rw [evictStale, List.mem_filter]
    refine ⟨hmem, ?_⟩
    simp
    omega

/-- Witness for C8: an entry aged 25 is evicted at limit 24, an entry aged
23 is retained. -/
theorem evictStale_spec_witness :
    ("k", (0 : Nat)) ∉ evictStale 25 24 [("k", 0)] ∧
    ("j", (2 : Nat)) ∈ evictStale 25 24 [("j", 2)] :=
  ⟨(evictStale_spec 25 24 [("k", 0)] "k" 0 (by decide)).1 (by decide),
   (evictStale_spec 25 24 [("j", 2)] "j" 2 (by decide)).2.1 (by decide)⟩

/-- C1: for a (date, price) pair already cached with timestamp `t`: within
the duplicate window `isDuplicateOffer` returns true without mutating the
cache, and a cycle presenting the identical pair delivers no notification;
once the window has elapsed the entry is refreshed to `now`, the call
returns false, and the cycle delivers exactly one additional notification;
on a cache miss the entry is inserted with timestamp `now` and the call
returns false. -/
theorem duplicate_window_spec (thr : Int) (now t : Nat) (v : Vuelo)
    (st : BotState)
    (hinit : st.initialized = true)
    (hlook : lookupOffer (getFlightId v) st.lastOffers = some t)
    (htru : truthy v.precio = true)
    (hbelow : priceBelow v.precio thr = true) :
    (now - t < duplicateWindow →
      isDuplicateOffer now v st.lastOffers = (true, st.lastOffers) ∧
      (fetchFlightData thr now (some [v]) (fun _ => true) st).2 = []) ∧
    (duplicateWindow ≤ now - t →
      isDuplicateOffer now v st.lastOffers =
        (false, setOffer (getFlightId v) now st.lastOffers) ∧
      (fetchFlightData thr now (some [v]) (fun _ => true) st).2 =
        [Msg.offer v.fecha v.precio]) ∧
    (∀ c : Cache, lookupOffer (getFlightId v) c = none →
      isDuplicateOffer now v c = (false, setOffer (getFlightId v) now c)) := by
  refine ⟨?_, ?_, ?_⟩
  · intro hw
    have hdup : isDuplicateOffer now v st.lastOffers = (true, st.lastOffers) := by
      simp [isDuplicateOffer, hlook, hw]
    refine ⟨hdup, ?_⟩
    simp [fetchFlightData, processOfertas, filterOfertas, dispatchOfertas,
      hinit, htru, hbelow, hdup]
  · intro hw
    have hge : ¬ (now - t < duplicateWindow) := Nat.not_lt.mpr hw
    have hdup : isDuplicateOffer now v st.lastOffers =
        (false, setOffer (getFlightId v) now st.lastOffers) := by
      simp [isDuplicateOffer, hlook, hge]
    refine ⟨hdup, ?_⟩
    simp [fetchFlightData, processOfertas, filterOfertas, dispatchOfertas,
      hinit, htru, hbelow, hdup]
  · intro c hc
    simp [isDuplicateOffer, hc]

/-- Witness for C1 at the 2026-03-08/$210 pair cached at time 0: a repeat
at 1000 ms is suppressed, a repeat at exactly the window boundary is
re-notified once. -/
theorem duplicate_window_spec_witness :
    (fetchFlightData 250 1000 (some [⟨"2026-03-08", some 210⟩])
        (fun _ => true) stSeen).2 = [] ∧
    (fetchFlightData 250 duplicateWindow (some [⟨"2026-03-08", some 210⟩])
        (fun _ => true) stSeen).2 = [Msg.offer "2026-03-08" (some 210)] :=
  ⟨((duplicate_window_spec 250 1000 0 ⟨"2026-03-08", some 210⟩ stSeen rfl
      (by decide) rfl (by decide)).1 (by decide)).2,
   ((duplicate_window_spec 250 duplicateWindow 0 ⟨"2026-03-08", some 210⟩
      stSeen rfl (by decide) rfl (by decide)).2.1 (by decide)).2⟩

/-- C4 counterexample: with two qualifying new offers where the first send
terminally fails while the second send would succeed, the cycle delivers
nothing (the second item is never dispatched) and the error counter is
incremented — the claim says processing continues and totalErrors is
untouched. -/
theorem notify_failure_aborts_cex :
    ((fetchFlightData 250 0
        (some [⟨"2026-03-08", some 210⟩, ⟨"2026-03-09", some 220⟩])
        (fun n => n != 0) stInit).1).errors = 1 ∧
    (fetchFlightData 250 0
        (some [⟨"2026-03-08", some 210⟩, ⟨"2026-03-09", some 220⟩])
        (fun n => n != 0) stInit).2 = [] := by
  decide

/-- C4 (amended): a notification's terminal failure is rethrown into the
cycle's catch block: when the first send of a nonempty dispatch terminally
fails, no offer notification is delivered in that cycle (the remaining
qualifying items are not processed) and the single `errors` counter — which
thus also counts notification-stage failures — is incremented by one. -/
theorem notify_failure_aborts (thr : Int) (now : Nat) (vuelos : List Vuelo)
    (sendOk : Nat → Bool) (st : BotState)
    (hinit : st.initialized = true)
    (hfail : sendOk 0 = false)
    (hne : (filterOfertas thr now vuelos st.lastOffers).1 ≠ []) :
    ((fetchFlightData thr now (some vuelos) sendOk st).1).errors =
      st.errors + 1 ∧
    ∀ f p, Msg.offer f p ∉ (fetchFlightData thr now (some vuelos) sendOk st).2 := by
  rw [fetchFlightData_initialized thr now vuelos sendOk st hinit]
  obtain ⟨he, hm⟩ := processOfertas_fail thr now vuelos sendOk 0 []
    { st with totalChecks := st.totalChecks + 1 } hne hfail
  refine ⟨he, ?_⟩
  intro f p hmem
  rcases hm _ hmem with h | ⟨n, h⟩
  · simp at h
  · exact Msg.noConfusion h

/-- Witness for C4's amended theorem at a concrete failing dispatch. -/
theorem notify_failure_aborts_witness :
    ((fetchFlightData 250 0 (some [⟨"2026-03-08", some 210⟩])
        (fun _ => false) stInit).1).errors = stInit.errors + 1 :=
  (notify_failure_aborts 250 0 [⟨"2026-03-08", some 210⟩] (fun _ => false)
    stInit rfl rfl (by decide)).1

/-- C6 counterexample: with one qualifying new offer whose send terminally
fails, `offersFound` still increases by 1 while no notification is
delivered. -/
theorem offersFound_cex :
    ((fetchFlightData 250 0 (some [⟨"2026-03-08", some 210⟩])
        (fun _ => false) stInit).1).offersFound = 1 ∧
    (fetchFlightData 250 0 (some [⟨"2026-03-08", some 210⟩])
        (fun _ => false) stInit).2 = [] := by
  decide

/-- C6 (amended): in a successful-fetch cycle `offersFound` increases by
the full number of qualifying new offers in the batch, counted before any
send is attempted and independent of how many notifications are actually
delivered. -/
theorem offersFound_counts_batch (thr : Int) (now : Nat) (vuelos : List Vuelo)
    (sendOk : Nat → Bool) (st : BotState) (hinit : st.initialized = true) :
    ((fetchFlightData thr now (some vuelos) sendOk st).1).offersFound =
      st.offersFound + (filterOfertas thr now vuelos st.lastOffers).1.length := by
  rw [fetchFlightData_initialized thr now vuelos sendOk st hinit,
    processOfertas_offersFound]

/-- Witness for C6's amended theorem: one qualifying offer, failing sends,
`offersFound` goes from 0 to 1. -/
theorem offersFound_counts_batch_witness :
    ((fetchFlightData 250 0 (some [⟨"2026-03-08", some 210⟩])
        (fun _ => false) stInit).1).offersFound =
      stInit.offersFound +
        (filterOfertas 250 0 [⟨"2026-03-08", some 210⟩] stInit.lastOffers).1.length :=
  offersFound_counts_batch 250 0 [⟨"2026-03-08", some 210⟩] (fun _ => false)
    stInit rfl

/-- C9 counterexample: a qualifying new offer whose send terminally fails
is still recorded in the cache (timestamped with the cycle's time) although
no notification was ever delivered — the claim says a key is present only
if a notification was delivered. -/
theorem cache_without_delivery_cex :
    lookupOffer (getFlightId ⟨"2026-03-08", some 210⟩)
        ((fetchFlightData 250 5 (some [⟨"2026-03-08", some 210⟩])
          (fun _ => false) stInit).1).lastOffers = some 5 ∧
    (fetchFlightData 250 5 (some [⟨"2026-03-08", some 210⟩])
        (fun _ => false) stInit).2 = [] := by
  decide

/-- C9 (amended): the cache entry for a qualifying new offer is created
during the filter step, before any notification is attempted: after a
cycle presenting such an offer its key maps to the cycle's timestamp under
every send-outcome oracle, including those under which the notification is
never delivered. -/
theorem cache_entry_at_filter_time (thr : Int) (now : Nat) (v : Vuelo)
    (sendOk : Nat → Bool) (st : BotState)
    (hinit : st.initialized = true)
    (htru : truthy v.precio = true)
    (hbelow : priceBelow v.precio thr = true)
    (hmiss : lookupOffer (getFlightId v) st.lastOffers = none) :
    lookupOffer (getFlightId v)
      ((fetchFlightData thr now (some [v]) sendOk st).1).lastOffers = some now := by
  have hdup : isDuplicateOffer now v st.lastOffers =
      (false, setOffer (getFlightId v) now st.lastOffers) := by
    simp [isDuplicateOffer, hmiss]
  have hfil : (filterOfertas thr now [v] st.lastOffers).2 =
      setOffer (getFlightId v) now st.lastOffers := by
    simp [filterOfertas, htru, hbelow, hdup]
  rw [fetchFlightData_initialized thr now [v] sendOk st hinit]
  refine processOfertas_cache thr now [v] sendOk 0 [] _ (getFlightId v) ?_
  show lookupOffer (getFlightId v)
    (filterOfertas thr now [v] st.lastOffers).2 = some now
  rw [hfil]
  exact lookupOffer_setOffer_self (getFlightId v) now st.lastOffers

/-- Witness for C9's amended theorem: the 2026-03-08/$210 offer at time 5
with failing sends ends up cached at timestamp 5. -/
theorem cache_entry_at_filter_time_witness :
    lookupOffer (getFlightId ⟨"2026-03-08", some 210⟩)
      ((fetchFlightData 250 5 (some [⟨"2026-03-08", some 210⟩])
        (fun _ => false) stInit).1).lastOffers = some 5 :=
  cache_entry_at_filter_time 250 5 ⟨"2026-03-08", some 210⟩ (fun _ => false)
    stInit rfl rfl (by decide) rfl

/-- C10: an item whose price field is 0 or absent is falsy, so the filter
drops it before the threshold comparison and before the duplicate check:
it contributes nothing to the surviving offers or to the cache, and a cycle
fetching it behaves exactly as if the item were absent — even when 0 is
below the configured threshold. -/
theorem falsy_price_skipped (thr : Int) (now : Nat) (v : Vuelo)
    (rest : List Vuelo) (cache : Cache)
    (hp : v.precio = some 0 ∨ v.precio = none) :
    filterOfertas thr now (v :: rest) cache = filterOfertas thr now rest cache ∧
    ∀ (sendOk : Nat → Bool) (st : BotState),
      fetchFlightData thr now (some (v :: rest)) sendOk st =
        fetchFlightData thr now (some rest) sendOk st := by
  have htru : truthy v.precio = false := by
    rcases hp with h | h <;> rw [h] <;> rfl
  have hfilter : ∀ c : Cache,
      filterOfertas thr now (v :: rest) c = filterOfertas thr now rest c := by
    intro c
    simp [filterOfertas, htru]
  refine ⟨hfilter cache, ?_⟩
  intro sendOk st
  simp only [fetchFlightData, processOfertas, hfilter]

/-- Witness for C10: a zero-priced item below threshold 250 is dropped by
the filter. -/
theorem falsy_price_skipped_witness :
    filterOfertas 250 7 [⟨"2026-03-08", some 0⟩] [] =
      filterOfertas 250 7 ([] : List Vuelo) [] :=
  (falsy_price_skipped 250 7 ⟨"2026-03-08", some 0⟩ [] [] (Or.inl rfl)).1

end FlightBot
